import Mathlib

/-!
A shallow embedding of the job lifecycle engine of nusaLaunchd
(src/job/{config,manager,supervisor,validator}.rs, src/process/spawner.rs,
src/util/erorr.rs) together with proofs about its behaviour.

Rust strings are modelled as `List Char`, `u32`/`u64` as `Nat` with explicit
wrap-around (`% 2^32`, `% 2^64`) where the source multiplies or increments,
`i32` as `Int`, `Instant` as a `Nat` tick count, and fallible operations as
`Except`.  Side effects on the event bus are modelled by returning the list
of events the operation sends.
-/

namespace Nusa

/-- `RestartPolicy` from src/job/config.rs. -/
inductive RestartPolicy
  | never
  | always
  | onFailure
  | onCrash
deriving DecidableEq, Repr

/-- `SupervisionConfig` from src/job/config.rs.
`restart_delay_sec` is a `u64`, `max_restarts` a `u32` (0 = unlimited). -/
structure SupervisionConfig where
  keep_alive : Bool
  restart_policy : RestartPolicy
  restart_delay_sec : Nat
  max_restarts : Nat
deriving DecidableEq, Repr

/-- `ProgramConfig` from src/job/config.rs; the `PathBuf` is modelled by its
character sequence. -/
structure ProgramConfig where
  path : List Char
  arguments : List (List Char)
deriving DecidableEq, Repr

/-- `EnvironmentVar` from src/job/config.rs. -/
structure EnvironmentVar where
  key : List Char
  value : List Char
deriving DecidableEq, Repr

/-- `JobConfig` from src/job/config.rs. -/
structure JobConfig where
  label : List Char
  description : Option (List Char)
  program : ProgramConfig
  supervision : SupervisionConfig
  environment : List EnvironmentVar
  working_directory : Option (List Char)
deriving DecidableEq, Repr

/-- `JobState` from src/job/manager.rs. -/
inductive JobState
  | stopped
  | starting
  | running
  | stopping
  | restarting
  | failed (reason : List Char)
  | backoff
deriving DecidableEq, Repr

/-- `JobInstance` from src/job/manager.rs.  The `tokio::task::JoinHandle` is
opaque; only its presence matters, so it is modelled as `Option Unit`.
`Instant`s are tick counts. -/
structure JobInstance where
  config : JobConfig
  state : JobState
  pid : Option Nat
  start_time : Option Nat
  restart_count : Nat
  last_exit_code : Option Int
  last_exit_signal : Option Int
  backoff_until : Option Nat
  process_handle : Option Unit
deriving DecidableEq, Repr

/-- `ConfigError` from src/util/erorr.rs. -/
inductive ConfigError
  | parse (msg : List Char)
  | validation (msg : List Char)
  | fileNotFound (path : List Char)
  | unsupportedFormat
  | toml (msg : List Char)
deriving DecidableEq, Repr

/-- `ProcessError` from src/util/erorr.rs. -/
inductive ProcessError
  | spawn (msg : List Char)
  | exited (code : Int)
  | signaled (n : Int)
  | timedOut
  | other (msg : List Char)
deriving DecidableEq, Repr

/-- `NusaError` from src/util/erorr.rs. -/
inductive NusaError
  | config (e : ConfigError)
  | process (e : ProcessError)
  | ioError (msg : List Char)
  | jobNotFound (label : List Char)
  | jobExists (label : List Char)
  | system (msg : List Char)
deriving DecidableEq, Repr

/-- The `thiserror` display string of a `ProcessError`
(src/util/erorr.rs, the `#[error(...)]` attributes). -/
def ProcessError.display : ProcessError → List Char
  | .spawn msg => "Failed to spawn process: ".toList ++ msg
  | .exited code => "Process exited with code ".toList ++ (toString code).toList
  | .signaled n => "Process terminated by signal ".toList ++ (toString n).toList
  | .timedOut => "Process timeout".toList
  | .other msg => "Process error: ".toList ++ msg

/-- The `thiserror` display string of a `ConfigError`. -/
def ConfigError.display : ConfigError → List Char
  | .parse msg => "Failed to parse config: ".toList ++ msg
  | .validation msg => "Invalid config: ".toList ++ msg
  | .fileNotFound path => "File '".toList ++ path ++ "' not found".toList
  | .unsupportedFormat => "Unsupported config format".toList
  | .toml msg => "TOML parsing error: ".toList ++ msg

/-- The `thiserror` display string of a `NusaError`. -/
def NusaError.display : NusaError → List Char
  | .config e => "Config error: ".toList ++ e.display
  | .process e => "Process error: ".toList ++ e.display
  | .ioError msg => "IO error: ".toList ++ msg
  | .jobNotFound label => "Job '".toList ++ label ++ "' not found".toList
  | .jobExists label => "Job '".toList ++ label ++ "' already exists".toList
  | .system msg => "System error: ".toList ++ msg

/-- `JobSupervisor::should_restart` from src/job/supervisor.rs, line for line:
keep_alive gate, then the max-restarts gate, then the policy match. -/
def should_restart (config : SupervisionConfig) (exit_code : Int)
    (signal : Option Int) (restart_count : Nat) : Bool :=
  if !config.keep_alive then
    false
  else if config.max_restarts > 0 && restart_count ≥ config.max_restarts then
    false
  else
    match config.restart_policy with
    | .always => true
    | .never => false
    | .onFailure => exit_code != 0
    | .onCrash => signal.isSome

/-- `JobSupervisor::calculate_backoff` from src/job/supervisor.rs:
`2u64.pow(restart_count.min(6))`, `base_secs * multiplier` in `u64`
arithmetic, result capped at 300 seconds.  Returns the seconds of the
`Duration`. -/
def calculate_backoff (config : SupervisionConfig) (restart_count : Nat) : Nat :=
  let base_secs := config.restart_delay_sec
  let exponent := min restart_count 6
  let multiplier := 2 ^ exponent
  let backoff_secs := (base_secs * multiplier) % 2 ^ 64
  min backoff_secs 300

/-- `JobManager::calculate_backoff_duration` from src/job/manager.rs:
`2u64.pow(instance.restart_count.min(5))` and NO 300-second cap.
Returns the seconds of the `Duration`. -/
def calculate_backoff_duration (inst : JobInstance) : Nat :=
  let base_delay := inst.config.supervision.restart_delay_sec
  let multiplier := 2 ^ min inst.restart_count 5
  (base_delay * multiplier) % 2 ^ 64

/-- `JobEvent` from src/job/manager.rs.  `Duration`s and `Instant`s are
second / tick counts. -/
inductive JobEvent
  | jobLoaded (label : List Char)
  | jobStarted (label : List Char) (pid : Nat) (time : Nat)
  | jobStopped (label : List Char) (previous_state : JobState)
  | jobExited (label : List Char) (code : Int) (signal : Option Int)
      (restart_count : Nat)
  | jobFailed (label : List Char) (state : JobState)
  | jobRestartScheduled (label : List Char) (delay : Nat) (attempt : Nat)
  | jobReadyForRestart (label : List Char)
deriving DecidableEq, Repr

/-- `JobStatus` from src/job/manager.rs. -/
structure JobStatus where
  label : List Char
  state : JobState
  pid : Option Nat
  restart_count : Nat
  uptime : Option Nat
  exit_code : Option Int
  exit_signal : Option Int
  config : JobConfig
deriving DecidableEq, Repr

/-- The registry `HashMap<String, JobInstance>` guarded by the manager's
`RwLock`, modelled as an association list (the manager keeps labels
unique). -/
abbrev Registry := List (List Char × JobInstance)

/-- `HashMap::get` / `contains_key` on the registry. -/
def Registry.find? : Registry → List Char → Option JobInstance
  | [], _ => none
  | (k, v) :: rest, label => if k = label then some v else Registry.find? rest label

/-- In-place mutation of the instance stored under `label`
(`jobs.get_mut(label)` followed by field writes). -/
def Registry.update : Registry → List Char → JobInstance → Registry
  | [], _, _ => []
  | (k, v) :: rest, label, inst =>
      if k = label then (k, inst) :: rest
      else (k, v) :: Registry.update rest label inst

/-- The fresh `JobInstance` built by `JobManager::load_job`
(src/job/manager.rs). -/
def freshInstance (config : JobConfig) : JobInstance :=
  { config := config
    state := .stopped
    pid := none
    start_time := none
    restart_count := 0
    last_exit_code := none
    last_exit_signal := none
    backoff_until := none
    process_handle := none }

/-- Result of a manager operation: the registry after the final lock release,
the returned `Result`, and the events sent on the bus (event sends are
modelled as succeeding; a send failure only occurs when the event channel is
closed). -/
structure ManagerStep where
  registry : Registry
  result : Except NusaError Unit
  events : List JobEvent
deriving Repr

/-- `JobManager::load_job` (src/job/manager.rs): duplicate labels are
rejected with `JobExists` and the registry is left untouched; otherwise a
fresh `Stopped` instance is inserted and `JobLoaded` is emitted.  The
asynchronous auto-start task spawned for `keep_alive` configs runs after
`load_job` has returned and is not part of this step. -/
def load_job (reg : Registry) (config : JobConfig) : ManagerStep :=
  if (Registry.find? reg config.label).isSome then
    { registry := reg, result := .error (.jobExists config.label), events := [] }
  else
    { registry := (config.label, freshInstance config) :: reg
      result := .ok ()
      events := [.jobLoaded config.label] }

/-- The registry as `JobManager::start_job` leaves it when it releases the
write lock to call the spawner: the instance is moved to `Starting` and its
`backoff_until` is cleared. -/
def start_job_window (reg : Registry) (label : List Char)
    (inst : JobInstance) : Registry :=
  Registry.update reg label { inst with state := .starting, backoff_until := none }

/-- Outcome of a `start_job` call.  `spawn_attempted` records whether the
spawner was invoked at all. -/
structure StartStep where
  registry : Registry
  result : Except NusaError Unit
  events : List JobEvent
  spawn_attempted : Bool
deriving Repr

/-- `JobManager::start_job` (src/job/manager.rs).  `now` is the current
instant; `spawn_result` is the outcome of `ProcessSpawner::spawn` (pid on
success), a parameter because spawning is external I/O.  The branches mirror
the source: missing label, `Running`/`Starting` no-op, un-expired `Backoff`
no-op, and otherwise the spawn with its success and failure finalisations. -/
def start_job (reg : Registry) (label : List Char) (now : Nat)
    (spawn_result : Except NusaError Nat) : StartStep :=
  match Registry.find? reg label with
  | none =>
      { registry := reg, result := .error (.jobNotFound label)
        events := [], spawn_attempted := false }
  | some inst =>
      if inst.state = .running ∨ inst.state = .starting then
        { registry := reg, result := .ok (), events := [], spawn_attempted := false }
      else if inst.state = .backoff ∧
          (∃ u, inst.backoff_until = some u ∧ now < u) then
        { registry := reg, result := .ok (), events := [], spawn_attempted := false }
      else
        let mid := start_job_window reg label inst
        match spawn_result with
        | .ok pid =>
            let inst' : JobInstance :=
              { inst with state := .running, backoff_until := none
                          pid := some pid, start_time := some now
                          process_handle := some (), restart_count := 0 }
            { registry := Registry.update mid label inst'
              result := .ok ()
              events := [.jobStarted label pid now]
              spawn_attempted := true }
        | .error e =>
            let inst' : JobInstance :=
              { inst with state := .failed ("Failed to start: ".toList ++ e.display)
                          backoff_until := none }
            { registry := Registry.update mid label inst'
              result := .error e
              events := []
              spawn_attempted := true }

/-- The registry as `JobManager::stop_job` leaves it when it drops the write
lock to signal the child and await the monitor: state set to `Stopping`, the
`process_handle` taken out; `pid` and everything else untouched. -/
def stop_job_window (reg : Registry) (label : List Char)
    (inst : JobInstance) : Registry :=
  Registry.update reg label { inst with state := .stopping, process_handle := none }

/-- `JobManager::stop_job` (src/job/manager.rs): record the previous state,
move to `Stopping`, take pid and handle, release the lock (TERM/KILL and the
10-second race happen here, pure I/O), re-acquire, set `Stopped`, clear
`pid`/`start_time`/`process_handle`, and emit `JobStopped(previous_state)`.
Note the source does NOT clear `backoff_until` here. -/
def stop_job (reg : Registry) (label : List Char) : ManagerStep :=
  match Registry.find? reg label with
  | none =>
      { registry := reg, result := .error (.jobNotFound label), events := [] }
  | some inst =>
      let mid := stop_job_window reg label inst
      let inst' : JobInstance :=
        { inst with state := .stopped, pid := none, start_time := none
                    process_handle := none }
      { registry := Registry.update mid label inst'
        result := .ok ()
        events := [.jobStopped label inst.state] }

/-- `JobManager::handle_process_exit` (src/job/manager.rs).  `now` is the
instant at which the backoff deadline is computed.  `restart_count` is a
`u32`, hence the wrap on increment. -/
def handle_process_exit (reg : Registry) (label : List Char) (exit_code : Int)
    (signal : Option Int) (restart_needed : Bool) (now : Nat) : ManagerStep :=
  match Registry.find? reg label with
  | none =>
      { registry := reg, result := .error (.jobNotFound label), events := [] }
  | some inst =>
      let inst0 : JobInstance :=
        { inst with last_exit_code := some exit_code, last_exit_signal := signal
                    pid := none, process_handle := none }
      if restart_needed then
        let inst1 : JobInstance :=
          { inst0 with state := .restarting
                       restart_count := (inst0.restart_count + 1) % 2 ^ 32 }
        if inst1.config.supervision.max_restarts > 0 ∧
            inst1.restart_count ≥ inst1.config.supervision.max_restarts then
          let inst2 : JobInstance :=
            { inst1 with state := .failed ("Exceeded max restarts (".toList ++
                (toString inst1.config.supervision.max_restarts).toList ++ ")".toList) }
          { registry := Registry.update reg label inst2
            result := .ok ()
            events := [.jobFailed label inst2.state] }
        else
          let d := calculate_backoff_duration inst1
          let inst2 : JobInstance :=
            { inst1 with backoff_until := some (now + d), state := .backoff }
          { registry := Registry.update reg label inst2
            result := .ok ()
            events := [.jobRestartScheduled label d inst2.restart_count] }
      else
        let inst1 : JobInstance := { inst0 with state := .stopped }
        { registry := Registry.update reg label inst1
          result := .ok ()
          events := [.jobExited label exit_code signal inst1.restart_count] }

/-- The body of `handle_restart_request` (src/job/manager.rs, the restart
scheduler task) after its sleep: if the instance is still `Backoff` or
`Restarting`, set its state to `Stopped` (WITHOUT touching `backoff_until`)
and emit `JobReadyForRestart`; otherwise do nothing. -/
def handle_restart_request (reg : Registry) (label : List Char) :
    Registry × List JobEvent :=
  match Registry.find? reg label with
  | none => (reg, [])
  | some inst =>
      if inst.state = .backoff ∨ inst.state = .restarting then
        (Registry.update reg label { inst with state := .stopped },
         [.jobReadyForRestart label])
      else
        (reg, [])

/-- `JobManager::get_job_status` (src/job/manager.rs): a read-lock snapshot;
`uptime` is `start_time.elapsed()` at instant `now`. -/
def get_job_status (reg : Registry) (label : List Char) (now : Nat) :
    Option JobStatus :=
  (Registry.find? reg label).map fun inst =>
    { label := label
      state := inst.state
      pid := inst.pid
      restart_count := inst.restart_count
      uptime := inst.start_time.map (fun t => now - t)
      exit_code := inst.last_exit_code
      exit_signal := inst.last_exit_signal
      config := inst.config }

/-- The error built by `ProcessSpawner::spawn` (src/process/spawner.rs) when
`command.spawn()` fails with OS error message `os_msg`.  The source writes
`NusaError::Process(format!("Failed to spawn process '{}': {}", path, e))`,
applying the `Process` variant to a bare `String`; the only conversion the
crate defines, `impl From<String> for ProcessError`, yields
`ProcessError::Other`, not `ProcessError::Spawn`. -/
def spawn_failure_error (config : JobConfig) (os_msg : List Char) : NusaError :=
  .process (.other ("Failed to spawn process '".toList ++ config.program.path ++
    "': ".toList ++ os_msg))

/-- `label.trim().is_empty()` in Rust: true iff every character of the label
is whitespace. -/
def trimEmpty (s : List Char) : Bool :=
  s.all Char.isWhitespace

/-- `s.len()` on a Rust `String` counts UTF-8 bytes. -/
def utf8Len (s : List Char) : Nat :=
  (s.map Char.utf8Size).sum

/-- `JobConfig::validate` (src/job/config.rs): label must not be
trim-empty, program path must not be empty; the dormant-policy case only
logs a warning. -/
def JobConfig.validate (c : JobConfig) : Except ConfigError Unit :=
  if trimEmpty c.label then
    .error (.validation "Label cannot be empty".toList)
  else if c.program.path.isEmpty then
    .error (.validation "Program path cannot be empty".toList)
  else
    .ok ()

/-- The invalid-character list of `ConfigValidator::validate_label`
(src/job/validator.rs). -/
def invalidLabelChars : List Char :=
  ['/', '\\', ':', '*', '?', '\x22', '<', '>', '|']

/-- `ConfigValidator::validate_label` (src/job/validator.rs): trim-empty
check, invalid-character check, then the 256-byte length check. -/
def validate_label (label : List Char) : Except ConfigError Unit :=
  if trimEmpty label then
    .error (.validation "Label cannot be empty".toList)
  else if label.any (fun c => invalidLabelChars.contains c) then
    .error (.validation ("Label contains invalid characters: ".toList ++ label))
  else if utf8Len label > 256 then
    .error (.validation "Label too long (max 256 characters)".toList)
  else
    .ok ()

/-- `ConfigValidator::validate_program_path` (src/job/validator.rs).  On a
POSIX host `Path::is_absolute` holds iff the path starts with `/`. -/
def validate_program_path (path : List Char) : Except ConfigError Unit :=
  if path.isEmpty then
    .error (.validation "Program path cannot be empty".toList)
  else if path.head? ≠ some '/' then
    .error (.validation ("Program path must be absolute: ".toList ++ path))
  else
    .ok ()

/-- `ConfigValidator::validate_working_directory` (src/job/validator.rs). -/
def validate_working_directory (path : List Char) : Except ConfigError Unit :=
  if path.head? ≠ some '/' then
    .error (.validation ("Working directory must be absolute: ".toList ++ path))
  else
    .ok ()

/-- `ConfigValidator::validate_environment` (src/job/validator.rs), a fold
over the variable list. -/
def validate_environment : List EnvironmentVar → Except ConfigError Unit
  | [] => .ok ()
  | env :: rest =>
      if trimEmpty env.key then
        .error (.validation "Environment variable key cannot be empty".toList)
      else if env.key.contains '=' || env.key.contains '\x00' then
        .error (.validation ("Invalid environment variable key: ".toList ++ env.key))
      else
        validate_environment rest

/-- `ConfigValidator::validate_supervision` (src/job/validator.rs). -/
def validate_supervision (s : SupervisionConfig) : Except ConfigError Unit :=
  if s.restart_delay_sec > 3600 then
    .error (.validation "Restart delay too long (max 3600 seconds)".toList)
  else
    .ok ()

/-- `ConfigValidator::validate` (src/job/validator.rs): label, program path,
optional working directory, environment, supervision, in that order. -/
def ConfigValidator.validate (c : JobConfig) : Except ConfigError Unit := do
  validate_label c.label
  validate_program_path c.program.path
  match c.working_directory with
  | some wd => validate_working_directory wd
  | none => pure ()
  validate_environment c.environment
  validate_supervision c.supervision

/-- The post-parse part of loading a configuration: `JobConfig::from_file`
(src/job/config.rs) runs `config.validate()` on the parsed document, and
`ConfigValidator::validate` (src/job/validator.rs, used by
`ConfigValidator::validate_file`) is the validation that follows it.
`ConfigError` is converted into `NusaError` through the `#[from]` impl. -/
def load_parsed_config (c : JobConfig) : Except NusaError JobConfig :=
  match c.validate with
  | .error e => .error (.config e)
  | .ok _ =>
      match ConfigValidator.validate c with
      | .error e => .error (.config e)
      | .ok _ => .ok c

/-! ## Shared invariants, fixtures and registry lemmas -/

/-- The pid/state invariant of §3 of the design:
`pid.is_some() ⇔ state ∈ {Running, Stopping}`. -/
def PidInv (i : JobInstance) : Prop :=
  i.pid.isSome ↔ (i.state = .running ∨ i.state = .stopping)

instance : DecidablePred PidInv := fun i => by
  unfold PidInv; infer_instance

/-- The backoff/state invariant of §3 of the design:
`backoff_until.is_some() ⇔ state = Backoff`. -/
def BackoffInv (i : JobInstance) : Prop :=
  i.backoff_until.isSome ↔ i.state = .backoff

instance : DecidablePred BackoffInv := fun i => by
  unfold BackoffInv; infer_instance

/-- A concrete job configuration used to evaluate the theorems below on
closed inputs. -/
def sampleConfig (label : List Char) (sup : SupervisionConfig) : JobConfig :=
  { label := label
    description := none
    program := { path := "/bin/echo".toList, arguments := [] }
    supervision := sup
    environment := []
    working_directory := none }

/-- A default supervision block (the serde defaults of src/job/config.rs). -/
def defaultSupervision : SupervisionConfig :=
  { keep_alive := true
    restart_policy := .onFailure
    restart_delay_sec := 1
    max_restarts := 5 }

theorem find?_update_self {reg : Registry} {label : List Char}
    {i i' : JobInstance} (h : Registry.find? reg label = some i) :
    Registry.find? (Registry.update reg label i') label = some i' := by
  induction reg with
  | nil => simp [Registry.find?] at h
  | cons p rest ih =>
      obtain ⟨k, v⟩ := p
      by_cases hk : k = label
      · subst hk
        simp [Registry.find?, Registry.update]
      · simp only [Registry.find?, Registry.update, if_neg hk] at h ⊢
        exact ih h

theorem find?_update_update_self {reg : Registry} {label : List Char}
    {i m1 m2 : JobInstance} (h : Registry.find? reg label = some i) :
    Registry.find? (Registry.update (Registry.update reg label m1) label m2)
      label = some m2 :=
  find?_update_self (find?_update_self h)

/-- For a validated config (`restart_delay_sec ≤ 3600`) the manager's
backoff never wraps around `u64`. -/
theorem calculate_backoff_duration_eq (inst : JobInstance)
    (h : inst.config.supervision.restart_delay_sec ≤ 3600) :
    calculate_backoff_duration inst =
      inst.config.supervision.restart_delay_sec * 2 ^ min inst.restart_count 5 := by
  have h1 : 2 ^ min inst.restart_count 5 ≤ 2 ^ 5 :=
    Nat.pow_le_pow_right (by norm_num) (Nat.min_le_right _ _)
  have hlt : inst.config.supervision.restart_delay_sec *
      2 ^ min inst.restart_count 5 < 2 ^ 64 := by
    calc inst.config.supervision.restart_delay_sec * 2 ^ min inst.restart_count 5
        ≤ 3600 * 2 ^ 5 := Nat.mul_le_mul h h1
      _ < 2 ^ 64 := by norm_num
  exact Nat.mod_eq_of_lt hlt

/-- For a validated config the supervisor's backoff never wraps around
`u64` either, so it is exactly the claimed capped formula. -/
theorem calculate_backoff_eq (cfg : SupervisionConfig) (rc : Nat)
    (h : cfg.restart_delay_sec ≤ 3600) :
    calculate_backoff cfg rc = min (cfg.restart_delay_sec * 2 ^ min rc 6) 300 := by
  have h1 : 2 ^ min rc 6 ≤ 2 ^ 6 :=
    Nat.pow_le_pow_right (by norm_num) (Nat.min_le_right _ _)
  have hlt : cfg.restart_delay_sec * 2 ^ min rc 6 < 2 ^ 64 := by
    calc cfg.restart_delay_sec * 2 ^ min rc 6
        ≤ 3600 * 2 ^ 6 := Nat.mul_le_mul h h1
      _ < 2 ^ 64 := by norm_num
  show min ((cfg.restart_delay_sec * 2 ^ min rc 6) % 2 ^ 64) 300 = _
  rw [Nat.mod_eq_of_lt hlt]

/-! ## C1: the restart predicate -/

/-- The restart predicate exactly as the claim phrases it: false when
`keep_alive` is false; otherwise false when `max_restarts > 0` and
`restart_count ≥ max_restarts`; otherwise by policy (`never` → false,
`always` → true, `on-failure` → `exit_code ≠ 0`, `on-crash` →
`signal.is_some()`). -/
def should_restart_claimed (config : SupervisionConfig) (exit_code : Int)
    (signal : Option Int) (restart_count : Nat) : Bool :=
  if config.keep_alive = false then
    false
  else if config.max_restarts > 0 ∧ restart_count ≥ config.max_restarts then
    false
  else
    match config.restart_policy with
    | .never => false
    | .always => true
    | .onFailure => decide (exit_code ≠ 0)
    | .onCrash => signal.isSome

/-- C1: `JobSupervisor::should_restart` agrees with the claimed cascade on
every supervision config, exit code, optional signal and restart count. -/
theorem C1_should_restart_matches_claim (config : SupervisionConfig)
    (exit_code : Int) (signal : Option Int) (restart_count : Nat) :
    should_restart config exit_code signal restart_count =
      should_restart_claimed config exit_code signal restart_count := by
  obtain ⟨ka, rp, rd, mr⟩ := config
  cases ka with
  | false => rfl
  | true =>
    unfold should_restart should_restart_claimed
    simp only [Bool.not_true, Bool.false_eq_true, if_false]
    by_cases h : mr > 0 ∧ restart_count ≥ mr
    · simp [h]
    · simp only [h, if_false]
      have hb : (decide (mr > 0) && decide (restart_count ≥ mr)) = false := by
        simpa [Bool.and_eq_true, decide_eq_true_eq] using h
      rw [hb]
      simp only [Bool.false_eq_true, if_false]
      cases rp <;> simp [bne_iff_ne, bne, beq_eq_decide]

/-- Witness for C1 (the statement is hypothesis-free, but we record a closed
instantiation anyway): with `keep_alive = true`, policy `on-failure`,
`max_restarts = 5` and `restart_count = 2`, a non-zero exit restarts. -/
theorem C1_should_restart_matches_claim_witness :
    should_restart defaultSupervision 1 none 2 =
      should_restart_claimed defaultSupervision 1 none 2 :=
  C1_should_restart_matches_claim defaultSupervision 1 none 2

/-! ## C6: load_job -/

/-- C6: loading a config whose label is already present fails with
`JobExists` and leaves the whole registry — in particular the existing
instance — untouched and emits nothing; loading a fresh label inserts a new
instance in state `Stopped` and succeeds. -/
theorem C6_load_job_duplicate_and_fresh (reg : Registry) (c : JobConfig) :
    ((Registry.find? reg c.label).isSome →
      (load_job reg c).result = .error (.jobExists c.label) ∧
      (load_job reg c).registry = reg ∧
      (load_job reg c).events = []) ∧
    (Registry.find? reg c.label = none →
      (load_job reg c).registry = (c.label, freshInstance c) :: reg ∧
      Registry.find? (load_job reg c).registry c.label = some (freshInstance c) ∧
      (freshInstance c).state = .stopped ∧
      (load_job reg c).result = .ok ()) := by
  constructor
  · intro h
    simp [load_job, h]
  · intro h
    simp [load_job, h, Registry.find?, freshInstance]

/-- Witness for C6: a duplicate load of the same label fails with
`JobExists` and changes nothing, and the first load inserted a `Stopped`
instance. -/
theorem C6_load_job_duplicate_and_fresh_witness :
    (load_job [("a".toList, freshInstance (sampleConfig "a".toList defaultSupervision))]
        (sampleConfig "a".toList defaultSupervision)).result =
      .error (.jobExists "a".toList) ∧
    (load_job [] (sampleConfig "a".toList defaultSupervision)).registry =
      [("a".toList, freshInstance (sampleConfig "a".toList defaultSupervision))] := by
  refine ⟨((C6_load_job_duplicate_and_fresh
      [("a".toList, freshInstance (sampleConfig "a".toList defaultSupervision))]
      (sampleConfig "a".toList defaultSupervision)).1 (by decide)).1, ?_⟩
  exact (((C6_load_job_duplicate_and_fresh []
      (sampleConfig "a".toList defaultSupervision)).2 (by decide)).1).trans (by decide)

/-! ## C7: start_job on Running / Starting -/

/-- C7: `start_job` on a label whose instance is `Running` or `Starting`
returns success, does not invoke the spawner, and leaves the registry — in
particular the instance's state, pid and restart_count — unchanged. -/
theorem C7_start_job_noop_when_running_or_starting (reg : Registry)
    (label : List Char) (now : Nat) (spawn_result : Except NusaError Nat)
    (inst : JobInstance) (hfind : Registry.find? reg label = some inst)
    (hstate : inst.state = .running ∨ inst.state = .starting) :
    start_job reg label now spawn_result =
      { registry := reg, result := .ok (), events := [], spawn_attempted := false } := by
  unfold start_job
  rw [hfind]
  simp [hstate]

/-- A running instance of the sample job, used as a closed input. -/
def runningInstanceA : JobInstance :=
  { freshInstance (sampleConfig "a".toList defaultSupervision) with
      state := .running, pid := some 41, start_time := some 2,
      process_handle := some () }

/-- A registry holding `runningInstanceA` under label `a`. -/
def runningRegA : Registry := [("a".toList, runningInstanceA)]

/-- Witness for C7: starting an already-`Running` job is a no-op. -/
theorem C7_start_job_noop_witness :
    start_job runningRegA "a".toList 7 (.ok 42) =
    { registry := runningRegA, result := .ok (), events := []
      spawn_attempted := false } :=
  C7_start_job_noop_when_running_or_starting runningRegA "a".toList 7 (.ok 42)
    runningInstanceA (by decide) (Or.inl (by decide))

/-! ## C10: get_job_status -/

/-- C10: `get_job_status` yields `None` (not an error) for a label that was
never loaded, and for a loaded label yields a snapshot carrying the
instance's current state, pid, restart count, last exit code and last exit
signal; the registry itself is only read (the operation takes the read half
of the lock and builds the snapshot from clones). -/
theorem C10_get_job_status_snapshot (reg : Registry) (label : List Char)
    (now : Nat) :
    (Registry.find? reg label = none → get_job_status reg label now = none) ∧
    (∀ inst, Registry.find? reg label = some inst →
      get_job_status reg label now = some
        { label := label
          state := inst.state
          pid := inst.pid
          restart_count := inst.restart_count
          uptime := inst.start_time.map (fun t => now - t)
          exit_code := inst.last_exit_code
          exit_signal := inst.last_exit_signal
          config := inst.config }) := by
  constructor
  · intro h; simp [get_job_status, h]
  · intro inst h; simp [get_job_status, h]

/-- A freshly-loaded (Stopped) instance of the sample job. -/
def stoppedInstanceA : JobInstance :=
  freshInstance (sampleConfig "a".toList defaultSupervision)

/-- A registry holding `stoppedInstanceA` under label `a`. -/
def stoppedRegA : Registry := [("a".toList, stoppedInstanceA)]

/-- Witness for C10: an absent label yields `none`; a loaded one yields its
snapshot. -/
theorem C10_get_job_status_snapshot_witness :
    get_job_status [] "a".toList 3 = none ∧
    get_job_status stoppedRegA "a".toList 3 =
      some
        { label := "a".toList
          state := .stopped
          pid := none
          restart_count := 0
          uptime := none
          exit_code := none
          exit_signal := none
          config := sampleConfig "a".toList defaultSupervision } := by
  refine ⟨(C10_get_job_status_snapshot [] "a".toList 3).1 (by decide), ?_⟩
  exact ((C10_get_job_status_snapshot stoppedRegA "a".toList 3).2
    stoppedInstanceA (by decide)).trans (by decide)

/-! ## C2: backoff of restarts scheduled after a process exit -/

/-- Supervision block with delay 1 s and unlimited restarts. -/
def supDelay1 : SupervisionConfig :=
  { keep_alive := true, restart_policy := .always
    restart_delay_sec := 1, max_restarts := 0 }

/-- Supervision block with the maximal validated delay of 3600 s. -/
def supDelay3600 : SupervisionConfig :=
  { supDelay1 with restart_delay_sec := 3600 }

/-- A running instance of a job with `supDelay1` that has already restarted
five times. -/
def instDelay1Rc5 : JobInstance :=
  { freshInstance (sampleConfig "j".toList supDelay1) with
      state := .running, pid := some 9, start_time := some 0, restart_count := 5 }

/-- A running instance of a job with `supDelay3600` that has already
restarted five times. -/
def instDelay3600Rc5 : JobInstance :=
  { freshInstance (sampleConfig "j".toList supDelay3600) with
      state := .running, pid := some 9, start_time := some 0, restart_count := 5 }

/-- C2 counterexample: restarts scheduled after a process exit go through
`JobManager::handle_process_exit`, which uses `calculate_backoff_duration`.
At attempt 6 with `restart_delay_sec = 1` the scheduled delay is 32 s, not
`min(1 * 2^min(6,6), 300) = 64` s as the claim states; and with
`restart_delay_sec = 3600` (the largest validated value) the scheduled delay
is 115200 s, far above the claimed 300-second bound on
`scheduled_at - now`. -/
theorem C2_backoff_counterexample :
    (handle_process_exit [("j".toList, instDelay1Rc5)] "j".toList 1 none true 0).events =
      [.jobRestartScheduled "j".toList 32 6] ∧
    32 ≠ min (supDelay1.restart_delay_sec * 2 ^ min 6 6) 300 ∧
    (handle_process_exit [("j".toList, instDelay3600Rc5)] "j".toList 1 none true 0).events =
      [.jobRestartScheduled "j".toList 115200 6] ∧
    ¬ (115200 ≤ 300) := by
  refine ⟨by decide, by decide, by decide, by decide⟩

/-- C2 amended: a restart scheduled after a process exit (with the restart
cap not yet reached) has backoff delay `restart_delay_sec * 2^min(restart_count, 5)`
seconds with NO 300-second cap — for validated configs it can reach
`3600 * 32 = 115200` s — while the formula the claim states,
`min(restart_delay_sec * 2^min(restart_count, 6), 300)`, is computed only by
`JobSupervisor::calculate_backoff`, which the restart path never calls. -/
theorem C2_backoff_amended (reg : Registry) (label : List Char)
    (inst : JobInstance) (ec : Int) (sig : Option Int) (now : Nat)
    (hfind : Registry.find? reg label = some inst)
    (hdelay : inst.config.supervision.restart_delay_sec ≤ 3600)
    (hcap : ¬(inst.config.supervision.max_restarts > 0 ∧
      (inst.restart_count + 1) % 2 ^ 32 ≥ inst.config.supervision.max_restarts)) :
    (handle_process_exit reg label ec sig true now).events =
      [.jobRestartScheduled label
        (inst.config.supervision.restart_delay_sec *
          2 ^ min ((inst.restart_count + 1) % 2 ^ 32) 5)
        ((inst.restart_count + 1) % 2 ^ 32)] ∧
    calculate_backoff inst.config.supervision inst.restart_count =
      min (inst.config.supervision.restart_delay_sec * 2 ^ min inst.restart_count 6)
        300 := by
  constructor
  · have heq : calculate_backoff_duration
        { inst with last_exit_code := some ec, last_exit_signal := sig
                    pid := none, process_handle := none
                    state := .restarting
                    restart_count := (inst.restart_count + 1) % 2 ^ 32 } =
        inst.config.supervision.restart_delay_sec *
          2 ^ min ((inst.restart_count + 1) % 2 ^ 32) 5 :=
      calculate_backoff_duration_eq _ hdelay
    simp only [handle_process_exit, hfind]
    rw [if_neg hcap]
    simp only [heq, if_true]
  · exact calculate_backoff_eq _ _ hdelay

/-- Witness for C2 amended: the exit of the 1-second-delay job at attempt 6
schedules 32 s (no cap), and the supervisor's unused formula gives
`min(1 * 2^min(5,6), 300)`. -/
theorem C2_backoff_amended_witness :
    (handle_process_exit [("j".toList, instDelay1Rc5)] "j".toList 1 none true 0).events =
      [.jobRestartScheduled "j".toList
        (instDelay1Rc5.config.supervision.restart_delay_sec *
          2 ^ min ((instDelay1Rc5.restart_count + 1) % 2 ^ 32) 5)
        ((instDelay1Rc5.restart_count + 1) % 2 ^ 32)] ∧
    calculate_backoff instDelay1Rc5.config.supervision instDelay1Rc5.restart_count =
      min (instDelay1Rc5.config.supervision.restart_delay_sec *
        2 ^ min instDelay1Rc5.restart_count 6) 300 :=
  C2_backoff_amended [("j".toList, instDelay1Rc5)] "j".toList instDelay1Rc5
    1 none 0 (by decide) (by decide) (by decide)

/-! ## C3: the pid/state invariant at lock-release points -/

/-- C3 counterexample: `stop_job` invoked on a `Stopped` instance (which
satisfies the invariant) leaves, across its lock-release window, an instance
in state `Stopping` with `pid = None`, violating
`pid.is_some() ⇔ state ∈ {Running, Stopping}` at that public observation
point. -/
theorem C3_pid_invariant_counterexample :
    PidInv stoppedInstanceA ∧
    Registry.find? (stop_job_window stoppedRegA "a".toList stoppedInstanceA)
      "a".toList =
      some { stoppedInstanceA with state := .stopping, process_handle := none } ∧
    ¬ PidInv { stoppedInstanceA with state := .stopping, process_handle := none } := by
  refine ⟨by decide, by decide, by decide⟩

/-- C3 amended: the pid/state equivalence holds for the affected instance at
the completion of `stop_job` and after `handle_process_exit`; across
`stop_job`'s lock-release window the instance sits in `Stopping` with its
entry pid, so the equivalence holds there exactly when the job had a pid on
entry — calling `stop_job` on a job without a pid (e.g. a `Stopped` one)
violates it in the window. -/
theorem C3_pid_invariant_amended :
    (∀ (reg : Registry) (label : List Char) (inst : JobInstance),
      Registry.find? reg label = some inst →
      Registry.find? (stop_job reg label).registry label =
        some { inst with state := .stopped, pid := none, start_time := none,
                         process_handle := none } ∧
      PidInv { inst with state := .stopped, pid := none, start_time := none,
                         process_handle := none }) ∧
    (∀ (reg : Registry) (label : List Char) (inst : JobInstance) (ec : Int)
      (sig : Option Int) (rn : Bool) (now : Nat) (i' : JobInstance),
      Registry.find? reg label = some inst →
      Registry.find? (handle_process_exit reg label ec sig rn now).registry label =
        some i' →
      PidInv i') ∧
    (∀ (reg : Registry) (label : List Char) (inst : JobInstance),
      Registry.find? reg label = some inst →
      Registry.find? (stop_job_window reg label inst) label =
        some { inst with state := .stopping, process_handle := none } ∧
      (PidInv { inst with state := .stopping, process_handle := none } ↔
        inst.pid.isSome)) := by
  refine ⟨?_, ?_, ?_⟩
  · intro reg label inst hfind
    constructor
    · simp only [stop_job, hfind, stop_job_window]
      exact find?_update_self (find?_update_self hfind)
    · simp [PidInv]
  · intro reg label inst ec sig rn now i' hfind hfind'
    cases rn with
    | false =>
        simp only [handle_process_exit, hfind, Bool.false_eq_true, if_false] at hfind'
        rw [find?_update_self hfind] at hfind'
        cases hfind'
        simp [PidInv]
    | true =>
        simp only [handle_process_exit, hfind, if_true] at hfind'
        by_cases hcap : inst.config.supervision.max_restarts > 0 ∧
            (inst.restart_count + 1) % 2 ^ 32 ≥ inst.config.supervision.max_restarts
        · rw [if_pos hcap, find?_update_self hfind] at hfind'
          cases hfind'
          simp [PidInv]
        · rw [if_neg hcap, find?_update_self hfind] at hfind'
          cases hfind'
          simp [PidInv]
  · intro reg label inst hfind
    refine ⟨find?_update_self hfind, ?_⟩
    simp [PidInv]

/-- Witness for C3 amended: stopping the running sample job ends with a
`Stopped`, pid-free instance, and across the window the equivalence reduces
to `pid.is_some()` of the entry instance (true here). -/
theorem C3_pid_invariant_amended_witness :
    Registry.find? (stop_job runningRegA "a".toList).registry "a".toList =
      some { runningInstanceA with state := .stopped, pid := none,
                                   start_time := none, process_handle := none } ∧
    (PidInv { runningInstanceA with state := .stopping, process_handle := none } ↔
      runningInstanceA.pid.isSome) :=
  ⟨(C3_pid_invariant_amended.1 runningRegA "a".toList runningInstanceA
      (by decide)).1,
   (C3_pid_invariant_amended.2.2 runningRegA "a".toList runningInstanceA
      (by decide)).2⟩

/-! ## C4: stop_job on a Stopped job -/

/-- A `Stopped` instance that still carries the `start_time` of its previous
run (as `handle_process_exit` leaves it: that function clears `pid` and
`process_handle` but not `start_time`). -/
def staleStoppedInstance : JobInstance :=
  { stoppedInstanceA with start_time := some 5, last_exit_code := some 0 }

/-- C4 counterexample: `stop_job` on a `Stopped` instance emits a
`JobStopped(label, Stopped)` event (the claim says no event is emitted), and
it resets `start_time` to `None`, which is a change whenever a previous run
had left it set. -/
theorem C4_stop_job_counterexample :
    staleStoppedInstance.state = .stopped ∧
    (stop_job [("a".toList, staleStoppedInstance)] "a".toList).events =
      [.jobStopped "a".toList .stopped] ∧
    (stop_job [("a".toList, staleStoppedInstance)] "a".toList).events ≠ [] ∧
    Registry.find?
      (stop_job [("a".toList, staleStoppedInstance)] "a".toList).registry
      "a".toList = some { staleStoppedInstance with start_time := none } ∧
    ({ staleStoppedInstance with start_time := none }).start_time ≠
      staleStoppedInstance.start_time := by
  refine ⟨by decide, by decide, by decide, by decide, by decide⟩

/-- C4 amended: on a `Stopped` instance without a pid, `stop_job` returns
success and leaves state, pid, `restart_count` and config unchanged, but it
clears `start_time` and `process_handle` and emits exactly one
`JobStopped(L, Stopped)` event. -/
theorem C4_stop_job_on_stopped_amended (reg : Registry) (label : List Char)
    (inst : JobInstance) (hfind : Registry.find? reg label = some inst)
    (hstate : inst.state = .stopped) (hpid : inst.pid = none) :
    (stop_job reg label).result = .ok () ∧
    (stop_job reg label).events = [.jobStopped label .stopped] ∧
    Registry.find? (stop_job reg label).registry label =
      some { inst with start_time := none, process_handle := none } ∧
    ({ inst with start_time := none, process_handle := none }).state = inst.state ∧
    ({ inst with start_time := none, process_handle := none }).pid = inst.pid ∧
    ({ inst with start_time := none, process_handle := none }).restart_count =
      inst.restart_count ∧
    ({ inst with start_time := none, process_handle := none }).config = inst.config := by
  refine ⟨?_, ?_, ?_, rfl, rfl, rfl, rfl⟩
  · simp [stop_job, hfind]
  · simp [stop_job, hfind, hstate]
  · simp only [stop_job, hfind, stop_job_window]
    rw [find?_update_update_self hfind]
    congr 1
    cases inst
    simp_all

/-- Witness for C4 amended: stopping the stale `Stopped` sample job. -/
theorem C4_stop_job_on_stopped_amended_witness :
    (stop_job [("a".toList, staleStoppedInstance)] "a".toList).result = .ok () ∧
    (stop_job [("a".toList, staleStoppedInstance)] "a".toList).events =
      [.jobStopped "a".toList .stopped] :=
  ⟨(C4_stop_job_on_stopped_amended [("a".toList, staleStoppedInstance)]
      "a".toList staleStoppedInstance (by decide) (by decide) (by decide)).1,
   (C4_stop_job_on_stopped_amended [("a".toList, staleStoppedInstance)]
      "a".toList staleStoppedInstance (by decide) (by decide) (by decide)).2.1⟩

/-! ## C5: spawn failure -/

/-- True exactly on the `ProcessError::Spawn` kind wrapped in
`NusaError::Process`. -/
def isSpawnKind : NusaError → Bool
  | .process (.spawn _) => true
  | _ => false

/-- A config whose program path cannot be spawned. -/
def badSpawnConfig : JobConfig :=
  { label := "svc".toList
    description := none
    program := { path := "/nonexistent/bin".toList, arguments := [] }
    supervision := defaultSupervision
    environment := []
    working_directory := none }

/-- The OS message for the failing spawn. -/
def osNoEnt : List Char := "No such file or directory".toList

/-- C5: evaluation at the failing input.  When the spawner fails,
`start_job` does move the instance to
`Failed("Failed to start: …")` as claimed, but the error it propagates is
NOT of kind `ProcessError::Spawn`: the spawner builds
`NusaError::Process(format!("Failed to spawn process '…': …"))`, applying
the variant to a bare `String` — ill-typed as written; the only conversion
the crate defines, `From<String> for ProcessError`, lands in
`ProcessError::Other`. -/
theorem C5_spawn_failure_evaluation :
    isSpawnKind (spawn_failure_error badSpawnConfig osNoEnt) = false ∧
    spawn_failure_error badSpawnConfig osNoEnt =
      .process (.other
        "Failed to spawn process '/nonexistent/bin': No such file or directory".toList) ∧
    (start_job [("svc".toList, freshInstance badSpawnConfig)] "svc".toList 0
        (.error (spawn_failure_error badSpawnConfig osNoEnt))).result =
      .error (spawn_failure_error badSpawnConfig osNoEnt) ∧
    Registry.find?
      (start_job [("svc".toList, freshInstance badSpawnConfig)] "svc".toList 0
        (.error (spawn_failure_error badSpawnConfig osNoEnt))).registry
      "svc".toList =
      some { freshInstance badSpawnConfig with
        state := .failed
          ("Failed to start: Process error: Process error: Failed to spawn process '/nonexistent/bin': No such file or directory".toList) } ∧
    ("Failed to start: ".toList).isPrefixOf
      ("Failed to start: Process error: Process error: Failed to spawn process '/nonexistent/bin': No such file or directory".toList) := by
  refine ⟨by decide, by decide, by rfl, by rfl, by decide⟩

/-! ## C8: labels containing '/' are rejected -/

/-- True exactly on a `Config(Validation(..))` failure. -/
def isValidationError : Except NusaError JobConfig → Bool
  | .error (.config (.validation _)) => true
  | _ => false

/-- C8: for every parsed configuration document whose label contains `/`,
the loading pipeline (`JobConfig::from_file`'s own validation followed by
`ConfigValidator::validate`) fails with a `Validation` error, so no
`JobConfig` is produced. -/
theorem C8_slash_label_rejected (c : JobConfig)
    (h : c.label.contains '/' = true) :
    isValidationError (load_parsed_config c) = true := by
  have hmem : '/' ∈ c.label := by
    simpa [List.contains] using h
  have hany : (c.label.any fun ch => invalidLabelChars.contains ch) = true := by
    rw [List.any_eq_true]
    exact ⟨'/', hmem, by decide⟩
  have hws : trimEmpty c.label = false := by
    unfold trimEmpty
    rw [List.all_eq_false]
    exact ⟨'/', hmem, by decide⟩
  unfold load_parsed_config JobConfig.validate
  rw [hws]
  simp only [Bool.false_eq_true, if_false]
  by_cases hp : c.program.path.isEmpty
  · simp [hp, isValidationError]
  · simp only [hp, Bool.false_eq_true, if_false]
    unfold ConfigValidator.validate validate_label
    rw [hws]
    simp only [Bool.false_eq_true, if_false]
    rw [hany]
    simp [isValidationError, Bind.bind, Except.bind]

/-- Sample config whose label contains a slash. -/
def slashLabelConfig : JobConfig :=
  sampleConfig "web/api".toList defaultSupervision

/-- Witness for C8: the label `web/api` is rejected with a Validation
error. -/
theorem C8_slash_label_rejected_witness :
    slashLabelConfig.label.contains '/' = true ∧
    isValidationError (load_parsed_config slashLabelConfig) = true :=
  ⟨by decide, C8_slash_label_rejected slashLabelConfig (by decide)⟩

/-! ## C9: the backoff/state invariant -/

/-- An instance sitting in `Backoff` with its deadline recorded. -/
def backoffInstanceB : JobInstance :=
  { freshInstance (sampleConfig "b".toList defaultSupervision) with
      state := .backoff, backoff_until := some 10, restart_count := 1,
      last_exit_code := some 1 }

/-- C9 counterexample: the restart-request handler moves a `Backoff`
instance to `Stopped` WITHOUT clearing `backoff_until`, so right after it
runs the instance has `backoff_until.is_some()` with state `Stopped`,
violating `backoff_until.is_some() ⇔ state = Backoff` at a public
observation point. -/
theorem C9_backoff_invariant_counterexample :
    BackoffInv backoffInstanceB ∧
    Registry.find?
      (handle_restart_request [("b".toList, backoffInstanceB)] "b".toList).1
      "b".toList = some { backoffInstanceB with state := .stopped } ∧
    ¬ BackoffInv { backoffInstanceB with state := .stopped } ∧
    (handle_restart_request [("b".toList, backoffInstanceB)] "b".toList).2 =
      [.jobReadyForRestart "b".toList] := by
  refine ⟨by decide, by decide, by decide, by decide⟩

/-- C9 amended: `start_job` preserves the backoff/state equivalence for the
affected instance (it clears `backoff_until` whenever it leaves the
`Backoff` state, and its lock-release window instance is `Starting` with
`backoff_until = None`); the restart-request handler does NOT: on an
instance in `Backoff` it produces state `Stopped` with `backoff_until`
unchanged, so the equivalence is violated right after it runs whenever the
deadline was set. -/
theorem C9_backoff_invariant_amended :
    (∀ (reg : Registry) (label : List Char) (inst : JobInstance) (now : Nat)
      (sr : Except NusaError Nat) (i' : JobInstance),
      Registry.find? reg label = some inst →
      BackoffInv inst →
      Registry.find? (start_job reg label now sr).registry label = some i' →
      BackoffInv i') ∧
    (∀ inst : JobInstance,
      BackoffInv { inst with state := .starting, backoff_until := none }) ∧
    (∀ (reg : Registry) (label : List Char) (inst : JobInstance),
      Registry.find? reg label = some inst →
      inst.state = .backoff →
      Registry.find? (handle_restart_request reg label).1 label =
        some { inst with state := .stopped } ∧
      ({ inst with state := .stopped }).backoff_until = inst.backoff_until ∧
      (inst.backoff_until.isSome → ¬ BackoffInv { inst with state := .stopped })) := by
  refine ⟨?_, ?_, ?_⟩
  · intro reg label inst now sr i' hfind hinv hfind'
    simp only [start_job, hfind] at hfind'
    by_cases h1 : inst.state = .running ∨ inst.state = .starting
    · rw [if_pos h1] at hfind'
      dsimp only at hfind'
      rw [hfind] at hfind'
      cases hfind'
      exact hinv
    · rw [if_neg h1] at hfind'
      by_cases h2 : inst.state = .backoff ∧ ∃ u, inst.backoff_until = some u ∧ now < u
      · rw [if_pos h2] at hfind'
        dsimp only at hfind'
        rw [hfind] at hfind'
        cases hfind'
        exact hinv
      · rw [if_neg h2] at hfind'
        cases sr with
        | ok pid =>
            dsimp only [start_job_window] at hfind'
            rw [find?_update_update_self hfind] at hfind'
            cases hfind'
            simp [BackoffInv]
        | error e =>
            dsimp only [start_job_window] at hfind'
            rw [find?_update_update_self hfind] at hfind'
            cases hfind'
            simp [BackoffInv]
  · intro inst
    simp [BackoffInv]
  · intro reg label inst hfind hstate
    refine ⟨?_, rfl, ?_⟩
    · simp only [handle_restart_request, hfind]
      rw [if_pos (Or.inl hstate)]
      exact find?_update_self hfind
    · intro hsome
      simp [BackoffInv, hsome]

/-- The instance `backoffInstanceB` becomes after a successful `start_job`
at instant 20 with pid 42. -/
def restartedInstanceB : JobInstance :=
  { backoffInstanceB with
      state := .running, pid := some 42, start_time := some 20,
      process_handle := some (), restart_count := 0, backoff_until := none }

/-- Witness for C9 amended: a successful `start_job` out of `Backoff`
whose deadline has passed yields a `Running` instance satisfying the
equivalence, and the handler applied to `backoffInstanceB` breaks it. -/
theorem C9_backoff_invariant_amended_witness :
    BackoffInv restartedInstanceB ∧
    Registry.find?
      (handle_restart_request [("b".toList, backoffInstanceB)] "b".toList).1
      "b".toList = some { backoffInstanceB with state := .stopped } ∧
    (backoffInstanceB.backoff_until.isSome →
      ¬ BackoffInv { backoffInstanceB with state := .stopped }) :=
  ⟨C9_backoff_invariant_amended.1 [("b".toList, backoffInstanceB)] "b".toList
      backoffInstanceB 20 (.ok 42) restartedInstanceB
      (by decide) (by decide) (by decide),
   (C9_backoff_invariant_amended.2.2 [("b".toList, backoffInstanceB)]
      "b".toList backoffInstanceB (by decide) (by decide)).1,
   (C9_backoff_invariant_amended.2.2 [("b".toList, backoffInstanceB)]
      "b".toList backoffInstanceB (by decide) (by decide)).2.2⟩

end Nusa
